import Mathlib

/-!
Shallow embedding of the NearTotalRecall OVOS skill
(`src/src/__init__.py`) and proofs about its retrieval core.

Conventions of the embedding:
* pandas DataFrames become Lean lists of records (`CleanedRow`, `OrigRow`);
  the numpy embedding matrix becomes `List (List ℚ)`; Python floats are
  embedded as rationals, which is exact for every concrete value appearing
  in the spec's scenarios.
* A Python function that can raise is embedded as `Except PyError _`;
  a Python value that can be `None` is embedded with `Option`.
* The SentenceTransformer model is embedded as a pure function
  `String → List ℚ` (the spec requires the model to be deterministic for
  identical input, which a Lean function is by construction).
-/

namespace NTR

/-- A row of the cleaned-memories table (`cleaned_data` in the skill).
The code only ever reads its `Timestamp` column and passes the whole row
through; remaining columns are kept abstractly as a field alist. -/
structure CleanedRow where
  timestamp : String
  fields : List (String × String)
deriving DecidableEq

instance : Inhabited CleanedRow := ⟨⟨"", []⟩⟩

/-- A row of the original-memories table (`original_data` in the skill),
keyed by `Timestamp` and holding the full `Memory_Description`. -/
structure OrigRow where
  timestamp : String
  description : String
deriving DecidableEq

/-- Python exceptions that the query-time paths of the skill can raise. -/
inductive PyError where
  /-- `AttributeError`: calling `.encode` on `self.model` when it is `None`. -/
  | attributeError : PyError
  /-- `IndexError`: `self.cleaned_data.iloc[i]` with `i` out of range. -/
  | indexError : PyError
deriving DecidableEq

/-- The skill's settings mapping.  Every field is optional because the host
may omit any key: `self.settings.get(k)` returns `None` for a missing key. -/
structure Settings where
  cleaned_data_path : Option String
  embeddings_path : Option String
  original_data_path : Option String
  top_n : Option Nat
  similarity_threshold : Option ℚ
  model_name : Option String

/-- `DEFAULT_SETTINGS` from the source (the three paths, `top_n = 5`,
`similarity_threshold = 0.5`, `model_name = "all-MiniLM-L6-v2"`). -/
def DEFAULT_SETTINGS : Settings :=
  { cleaned_data_path := some "/path/to/cleaned_memories.csv"
    embeddings_path := some "/path/to/memory_embeddings.npy"
    original_data_path := some "/path/to/MeePiMemories.csv"
    top_n := some 5
    similarity_threshold := some (1/2)
    model_name := some "all-MiniLM-L6-v2" }

/-- `self.settings.merge(DEFAULT_SETTINGS, new_only=True)`: a key already
present is kept, a missing key is filled from the defaults. -/
def mergeNewOnly (s d : Settings) : Settings :=
  { cleaned_data_path := s.cleaned_data_path <|> d.cleaned_data_path
    embeddings_path := s.embeddings_path <|> d.embeddings_path
    original_data_path := s.original_data_path <|> d.original_data_path
    top_n := s.top_n <|> d.top_n
    similarity_threshold := s.similarity_threshold <|> d.similarity_threshold
    model_name := s.model_name <|> d.model_name }

/-- The `initialize` lifecycle hook: merges the defaults into the settings.
The host calls it only after `__init__` has already run. -/
def initializeSettings (s : Settings) : Settings :=
  mergeNewOnly s DEFAULT_SETTINGS

/-- `self.top_n = self.settings.get("top_n")` in `__init__`: the value is
captured from the host-supplied settings BEFORE `initialize` merges the
defaults, so a missing key yields `none` here. -/
def initTopN (s : Settings) : Option Nat := s.top_n

/-- The attribute state of a constructed `NearTotalRecall` skill: the four
loaded artifacts (each degraded to `none` when its load failed) and the
tuning attributes captured from the settings in `__init__`. -/
structure SkillState where
  cleaned_data : Option (List CleanedRow)
  embeddings : Option (List (List ℚ))
  original_data : Option (List OrigRow)
  model : Option (String → List ℚ)
  top_n : Option Nat
  similarity_threshold : Option ℚ
  model_name : Option String

/-- Row-wise inner product: one entry of
`np.dot(self.embeddings, query_embedding.T).flatten()`. `np.dot` requires
the two vectors to have equal length (the spec's dimensionality invariant);
under that invariant the truncating `zipWith` agrees with it. -/
def dot (a b : List ℚ) : ℚ := (List.zipWith (fun x y => x * y) a b).sum

/-- `similarities`: the vector of dot products of each embedding row with
the encoded query. -/
def similarityScores (em : List (List ℚ)) (q : List ℚ) : List ℚ :=
  em.map (fun row => dot row q)

/-- The comparison on indices used to model `np.argsort`: ascending by
value, with value ties broken by the index itself (the order a stable
ascending argsort realises). -/
def simLe (v : List ℚ) (a b : Nat) : Prop :=
  v.getD a 0 < v.getD b 0 ∨ (v.getD a 0 = v.getD b 0 ∧ a ≤ b)

instance instDecSimLe (v : List ℚ) : DecidableRel (simLe v) := fun a b =>
  inferInstanceAs (Decidable (v.getD a 0 < v.getD b 0 ∨ (v.getD a 0 = v.getD b 0 ∧ a ≤ b)))

/-- `np.argsort(similarities)`: the indices `0 .. len-1` sorted so that the
values are ascending.

Where equal values land is model choice, because numpy's default
`kind='quicksort'` (introsort) is NOT stable in general: its partitioning
may reorder equal elements once the array exceeds the `SMALL_QUICKSORT`
threshold, below which it runs a plain (stable) insertion sort — i.e. the
whole sort is the stable insertion sort exactly when the array has at most
16 elements.  This model uses the stable order (`simLe` breaks value ties
by index), so it is EXACT for inputs of at most 16 rows and an
over-approximation of numpy's unspecified tie order beyond that.
Accordingly, no theorem below cites the tie order of this model except
under an explicit `length ≤ 16` bound; every other use relies only on
properties shared by all correct sorts (a sorted permutation of
`0 .. len-1`), for which the tie-break is immaterial. -/
def argsort (v : List ℚ) : List Nat :=
  List.insertionSort (simLe v) (List.range v.length)

/-- Python's `l[:n]` where `n` may be `None`: `l[:None]` is all of `l`. -/
def pySliceTo {α : Type} (n : Option Nat) (l : List α) : List α :=
  match n with
  | none => l
  | some k => l.take k

/-- `find_closest_memory(self, query)`:
checks `self.cleaned_data is None or self.embeddings is None` (soft-fails
to `[]`), encodes the query with `self.model` (raising `AttributeError`
when the model is `None`), computes the similarity vector, takes
`np.argsort(similarities)[::-1][:self.top_n]`, and builds
`(similarities[i], cleaned_data.iloc[i], cleaned_data.iloc[i]['Timestamp'])`
for each selected index (`iloc` raising `IndexError` out of range). -/
def find_closest_memory (st : SkillState) (query : String) :
    Except PyError (List (ℚ × CleanedRow × String)) :=
  match st.cleaned_data, st.embeddings with
  | none, _ => .ok []
  | some _, none => .ok []
  | some ct, some em =>
    match st.model with
    | none => .error .attributeError
    | some f =>
      let similarities := similarityScores em (f query)
      let top_n_indices := pySliceTo st.top_n (argsort similarities).reverse
      top_n_indices.mapM (fun i =>
        match ct[i]? with
        | some r => .ok (similarities.getD i 0, r, r.timestamp)
        | none => .error .indexError)

/-- `recall_full_memory(self, memory_id)`: `None` when `self.original_data`
is `None`; otherwise filters rows whose `Timestamp` equals `memory_id` and
returns the first match's `Memory_Description`, or `None` when the filtered
frame is empty. -/
def recall_full_memory (st : SkillState) (memory_id : String) : Option String :=
  match st.original_data with
  | none => none
  | some tbl =>
    match tbl.find? (fun r => r.timestamp == memory_id) with
    | some row => some row.description
    | none => none

/-- What the intent handler speaks. -/
inductive Dialog where
  /-- `speak_dialog("recite_memory", {"memory": full_memory})`; the code
  passes `full_memory` along even when it is `None`. -/
  | reciteMemory : Option String → Dialog
  /-- `speak_dialog("no_memory_found")`. -/
  | noMemoryFound : Dialog
deriving DecidableEq

/-- An intent message: the handler only reads its `data` payload. -/
structure Message where
  data : List (String × String)

/-- `handle_do_you_recall_intent(self, message)`:
`query = message.data.get("query", "")`; `results = find_closest_memory(query)`;
a non-empty result speaks `recite_memory` with
`recall_full_memory(results[0][2])` (whatever that resolves to, absent
included); an empty result speaks `no_memory_found`; an exception raised
by `find_closest_memory` propagates. -/
def handle_do_you_recall_intent (st : SkillState) (msg : Message) :
    Except PyError Dialog :=
  let query := (msg.data.lookup "query").getD ""
  match find_closest_memory st query with
  | .error e => .error e
  | .ok [] => .ok .noMemoryFound
  | .ok (memory :: _) => .ok (.reciteMemory (recall_full_memory st memory.2.2))

/-!
## Concrete states

Fixtures taken directly from the spec's scenarios (§8) and from the
counterexamples established below.
-/

/-- Scenario 1's state: three cleaned rows, embedding rows `[1,0]`, `[0,1]`,
`[0.7,0.7]`, a model embedding every query to `[1,0]`, `top_n = 2`. -/
def scnState : SkillState :=
  { cleaned_data := some [⟨"t0", []⟩, ⟨"t1", []⟩, ⟨"t2", []⟩]
    embeddings := some [[1, 0], [0, 1], [7/10, 7/10]]
    original_data := none
    model := some (fun _ => [1, 0])
    top_n := some 2
    similarity_threshold := some (1/2)
    model_name := some "all-MiniLM-L6-v2" }

/-- Scenario 2's state: the cleaned-data load failed (`None`), everything
else present. -/
def unavailState : SkillState :=
  { cleaned_data := none
    embeddings := some [[1, 0]]
    original_data := none
    model := some (fun _ => [1, 0])
    top_n := some 5
    similarity_threshold := some (1/2)
    model_name := some "all-MiniLM-L6-v2" }

/-- Scenario 3's state: one original-memory row
`Timestamp="T1", Memory_Description="birthday party"`. -/
def origState : SkillState :=
  { cleaned_data := none
    embeddings := none
    original_data := some [⟨"T1", "birthday party"⟩]
    model := none
    top_n := some 5
    similarity_threshold := some (1/2)
    model_name := some "all-MiniLM-L6-v2" }

/-- Two memory rows with identical embeddings `[1]`, so both score `1`
against any query the model sends to `[1]`: a score tie between row 0 and
row 1. -/
def tieState : SkillState :=
  { cleaned_data := some [⟨"t0", []⟩, ⟨"t1", []⟩]
    embeddings := some [[1], [1]]
    original_data := none
    model := some (fun _ => [1])
    top_n := some 5
    similarity_threshold := some (1/2)
    model_name := some "all-MiniLM-L6-v2" }

/-- Both tables loaded but the SentenceTransformer model failed to load
(`self.model is None`). -/
def noModelState : SkillState :=
  { cleaned_data := some [⟨"t0", []⟩]
    embeddings := some [[1]]
    original_data := none
    model := none
    top_n := some 5
    similarity_threshold := some (1/2)
    model_name := some "bad-model" }

/-- Retrieval succeeds (one matching memory) but `original_data` failed to
load, so `recall_full_memory` resolves to absent. -/
def absentResolveState : SkillState :=
  { cleaned_data := some [⟨"t0", []⟩]
    embeddings := some [[1]]
    original_data := none
    model := some (fun _ => [1])
    top_n := some 5
    similarity_threshold := some (1/2)
    model_name := some "all-MiniLM-L6-v2" }

/-- `scnState` with a different original table and model name: identical in
every field `find_closest_memory` reads. -/
def scnStateAltOrig : SkillState :=
  { scnState with
    original_data := some [⟨"T1", "x"⟩]
    model_name := some "other" }

/-- A host-supplied settings mapping with no `top_n` key. -/
def hostSettingsNoTopN : Settings :=
  { cleaned_data_path := some "/data/cleaned_memories.csv"
    embeddings_path := some "/data/memory_embeddings.npy"
    original_data_path := some "/data/MeePiMemories.csv"
    top_n := none
    similarity_threshold := some (1/2)
    model_name := some "all-MiniLM-L6-v2" }

/-- The skill state constructed from `hostSettingsNoTopN` (`__init__`
captures `top_n` before `initialize` merges the defaults) with six loaded
memory rows. -/
def sixRowState : SkillState :=
  { cleaned_data := some [⟨"t0", []⟩, ⟨"t1", []⟩, ⟨"t2", []⟩,
                          ⟨"t3", []⟩, ⟨"t4", []⟩, ⟨"t5", []⟩]
    embeddings := some [[1], [2], [3], [4], [5], [6]]
    original_data := none
    model := some (fun _ => [1])
    top_n := initTopN hostSettingsNoTopN
    similarity_threshold := hostSettingsNoTopN.similarity_threshold
    model_name := hostSettingsNoTopN.model_name }

/-!
## Helper lemmas about the ranking pipeline
-/

instance (v : List ℚ) : IsTotal ℕ (simLe v) := by
  constructor
  intro a b
  rcases lt_trichotomy (v.getD a 0) (v.getD b 0) with h | h | h
  · exact Or.inl (Or.inl h)
  · rcases Nat.le_total a b with hab | hab
    · exact Or.inl (Or.inr ⟨h, hab⟩)
    · exact Or.inr (Or.inr ⟨h.symm, hab⟩)
  · exact Or.inr (Or.inl h)

instance (v : List ℚ) : IsTrans ℕ (simLe v) := by
  constructor
  intro a b c hab hbc
  rcases hab with hab | ⟨hab, hab'⟩ <;> rcases hbc with hbc | ⟨hbc, hbc'⟩
  · exact Or.inl (lt_trans hab hbc)
  · exact Or.inl (hbc ▸ hab)
  · exact Or.inl (hab ▸ hbc)
  · exact Or.inr ⟨hab.trans hbc, le_trans hab' hbc'⟩

theorem simLe_le {v : List ℚ} {a b : ℕ} (h : simLe v a b) :
    v.getD a 0 ≤ v.getD b 0 := by
  rcases h with h | ⟨h, _⟩
  · exact le_of_lt h
  · exact le_of_eq h

theorem simLe_tie {v : List ℚ} {a b : ℕ} (h : simLe v a b)
    (heq : v.getD a 0 = v.getD b 0) : a ≤ b := by
  rcases h with h | ⟨_, h⟩
  · exact absurd heq (ne_of_lt h)
  · exact h

theorem argsort_perm (v : List ℚ) : (argsort v).Perm (List.range v.length) :=
  List.perm_insertionSort _ _

theorem length_argsort (v : List ℚ) : (argsort v).length = v.length := by
  rw [(argsort_perm v).length_eq, List.length_range]

theorem mem_argsort {v : List ℚ} {i : ℕ} : i ∈ argsort v ↔ i < v.length := by
  rw [(argsort_perm v).mem_iff, List.mem_range]

theorem sorted_argsort (v : List ℚ) : List.Sorted (simLe v) (argsort v) :=
  List.sorted_insertionSort _ _

theorem pairwise_reverse_argsort (v : List ℚ) :
    List.Pairwise (fun a b => simLe v b a) (argsort v).reverse :=
  List.pairwise_reverse.2 (sorted_argsort v)

theorem pySliceTo_subset {α : Type} (n : Option Nat) (l : List α) :
    pySliceTo n l ⊆ l := by
  cases n with
  | none => exact fun _ h => h
  | some k => exact List.take_subset k l

theorem pySliceTo_sublist {α : Type} (n : Option Nat) (l : List α) :
    (pySliceTo n l).Sublist l := by
  cases n with
  | none => exact List.Sublist.refl l
  | some k => exact List.take_sublist k l

theorem length_pySliceTo_some {α : Type} (k : Nat) (l : List α) :
    (pySliceTo (some k) l).length = min k l.length :=
  List.length_take k l

theorem similarityScores_length (em : List (List ℚ)) (q : List ℚ) :
    (similarityScores em q).length = em.length :=
  List.length_map em _

theorem similarityScores_getD {em : List (List ℚ)} {q : List ℚ} {i : ℕ}
    (h : i < em.length) :
    (similarityScores em q).getD i 0 = dot (em.getD i []) q := by
  have h' : i < (similarityScores em q).length := by
    rw [similarityScores_length]; exact h
  rw [List.getD_eq_getElem?_getD, List.getElem?_eq_getElem h',
    List.getD_eq_getElem?_getD, List.getElem?_eq_getElem h]
  simp [similarityScores]

/-- The `iloc`-building `mapM` of `find_closest_memory` succeeds when every
selected index is within the cleaned table. -/
theorem mapM_iloc_ok (ct : List CleanedRow) (sims : List ℚ) (l : List Nat)
    (h : ∀ i ∈ l, i < ct.length) :
    (l.mapM (fun i =>
        match ct[i]? with
        | some r => Except.ok (sims.getD i 0, r, r.timestamp)
        | none => (Except.error .indexError :
            Except PyError (ℚ × CleanedRow × String)))) =
      Except.ok (l.map fun i =>
        (sims.getD i 0, ct.getD i default, (ct.getD i default).timestamp)) := by
  induction l with
  | nil => rfl
  | cons i l ih =>
    have hi : i < ct.length := h i (List.mem_cons_self i l)
    have hrec := ih (fun j hj => h j (List.mem_cons_of_mem _ hj))
    rw [List.mapM_cons, hrec, List.getElem?_eq_getElem hi]
    simp [Except.instMonad, Except.bind, Except.pure,
      List.getD_eq_getElem?_getD, List.getElem?_eq_getElem hi]

/-- Characterisation of `find_closest_memory` on a fully loaded state whose
tables satisfy the row-count invariant: it returns the sliced, reversed
argsort of the similarity vector, each index paired into its result triple. -/
theorem find_closest_eq_ok (st : SkillState) (ct : List CleanedRow)
    (em : List (List ℚ)) (f : String → List ℚ) (query : String)
    (hc : st.cleaned_data = some ct) (he : st.embeddings = some em)
    (hm : st.model = some f) (hlen : em.length = ct.length) :
    find_closest_memory st query =
      .ok ((pySliceTo st.top_n
          (argsort (similarityScores em (f query))).reverse).map
        (fun i => ((similarityScores em (f query)).getD i 0, ct.getD i default,
          (ct.getD i default).timestamp))) := by
  unfold find_closest_memory
  rw [hc, he, hm]
  refine mapM_iloc_ok ct _ _ ?_
  intro i hi
  have h1 : i ∈ (argsort (similarityScores em (f query))).reverse :=
    pySliceTo_subset _ _ hi
  have h2 : i ∈ argsort (similarityScores em (f query)) :=
    List.mem_reverse.1 h1
  have h3 : i < (similarityScores em (f query)).length := mem_argsort.1 h2
  rw [similarityScores_length] at h3
  exact hlen ▸ h3

theorem fc_empty_of_unavailable (st : SkillState) (q : String)
    (h : st.cleaned_data = none ∨ st.embeddings = none) :
    find_closest_memory st q = .ok [] := by
  rcases h with h | h
  · simp [find_closest_memory, h]
  · cases hc : st.cleaned_data <;> simp [find_closest_memory, h, hc]

theorem fc_error_of_no_model (st : SkillState) (q : String)
    (ct : List CleanedRow) (em : List (List ℚ))
    (hc : st.cleaned_data = some ct) (he : st.embeddings = some em)
    (hm : st.model = none) :
    find_closest_memory st q = .error .attributeError := by
  simp [find_closest_memory, hc, he, hm]

theorem recall_none_of_unavailable (st : SkillState) (k : String)
    (h : st.original_data = none) : recall_full_memory st k = none := by
  simp [recall_full_memory, h]

theorem find?_first_match (p : OrigRow → Bool) (pre : List OrigRow)
    (row : OrigRow) (suf : List OrigRow) (hrow : p row = true)
    (hpre : ∀ r ∈ pre, ¬p r = true) :
    List.find? p (pre ++ row :: suf) = some row := by
  induction pre with
  | nil => simp [List.find?_cons, hrow]
  | cons r pre ih =>
    have hr : p r = false :=
      Bool.eq_false_iff.2 (hpre r (List.mem_cons_self r pre))
    simp only [List.cons_append, List.find?_cons, hr]
    exact ih (fun x hx => hpre x (List.mem_cons_of_mem _ hx))

/-!
## Claims
-/

/-- C1: on a loaded state whose tables satisfy the row-count invariant,
`find_closest_memory` scores row `i` as the dot product of embedding row
`i` with the embedded query, ranks rows by score descending, and returns
exactly `min top_n rows` triples (so never more than either bound); and on
Scenario 1's state (rows `[1,0]`, `[0,1]`, `[0.7,0.7]`, query embedding
`[1,0]`, `top_n = 2`) it returns row 0 (score 1) then row 2 (score 0.7),
with row 1 excluded. -/
theorem C1_find_closest_ranked_topn (st : SkillState) (ct : List CleanedRow)
    (em : List (List ℚ)) (f : String → List ℚ) (n : ℕ) (query : String)
    (hc : st.cleaned_data = some ct) (he : st.embeddings = some em)
    (hm : st.model = some f) (ht : st.top_n = some n)
    (hlen : em.length = ct.length) :
    (∃ rs, find_closest_memory st query = .ok rs ∧
      rs.length = min n em.length ∧
      List.Pairwise (fun x y => y.1 ≤ x.1) rs ∧
      ∀ x ∈ rs, ∃ i, i < em.length ∧
        x = (dot (em.getD i []) (f query), ct.getD i default,
             (ct.getD i default).timestamp)) ∧
    find_closest_memory scnState "what happened" =
      .ok [(1, ⟨"t0", []⟩, "t0"), (7/10, ⟨"t2", []⟩, "t2")] := by
  constructor
  · refine ⟨_, find_closest_eq_ok st ct em f query hc he hm hlen, ?_, ?_, ?_⟩
    · rw [List.length_map, ht, length_pySliceTo_some, List.length_reverse,
        length_argsort, similarityScores_length]
    · rw [List.pairwise_map]
      refine List.Pairwise.imp ?_
        (List.Pairwise.sublist (pySliceTo_sublist _ _)
          (pairwise_reverse_argsort _))
      intro a b h
      exact simLe_le h
    · intro x hx
      rcases List.mem_map.1 hx with ⟨i, hi, rfl⟩
      have h2 : i ∈ argsort (similarityScores em (f query)) :=
        List.mem_reverse.1 (pySliceTo_subset _ _ hi)
      have h3 : i < em.length := by
        rw [← similarityScores_length em (f query)]
        exact mem_argsort.1 h2
      exact ⟨i, h3, by rw [similarityScores_getD h3]⟩
  · norm_num [find_closest_memory, similarityScores, dot, argsort, simLe,
      pySliceTo, scnState, List.range_succ, List.mapM.loop,
      Except.instMonad, Except.bind, Except.pure]

/-- Witness for C1: the general part instantiated at Scenario 1's state. -/
theorem C1_witness :
    (∃ rs, find_closest_memory scnState "what happened" = .ok rs ∧
      rs.length = min 2 ([[1, 0], [0, 1], [7/10, 7/10]] : List (List ℚ)).length ∧
      List.Pairwise (fun x y => y.1 ≤ x.1) rs ∧
      ∀ x ∈ rs, ∃ i, i < ([[1, 0], [0, 1], [7/10, 7/10]] : List (List ℚ)).length ∧
        x = (dot (([[1, 0], [0, 1], [7/10, 7/10]] : List (List ℚ)).getD i [])
               ((fun _ => ([1, 0] : List ℚ)) "what happened"),
             ([⟨"t0", []⟩, ⟨"t1", []⟩, ⟨"t2", []⟩] : List CleanedRow).getD i default,
             (([⟨"t0", []⟩, ⟨"t1", []⟩, ⟨"t2", []⟩] : List CleanedRow).getD i
                 default).timestamp)) ∧
    find_closest_memory scnState "what happened" =
      .ok [(1, ⟨"t0", []⟩, "t0"), (7/10, ⟨"t2", []⟩, "t2")] :=
  C1_find_closest_ranked_topn scnState _ _ _ 2 "what happened" rfl rfl rfl rfl rfl

/-- C2: when the cleaned table or the embedding matrix is unavailable,
`find_closest_memory` returns the empty list (no exception) for every
query, the empty string included. -/
theorem C2_unavailable_returns_empty (st : SkillState) (q : String)
    (h : st.cleaned_data = none ∨ st.embeddings = none) :
    find_closest_memory st q = .ok [] :=
  fc_empty_of_unavailable st q h

/-- Witness for C2: Scenario 2's state and the empty query. -/
theorem C2_witness :
    unavailState.cleaned_data = none ∧
    find_closest_memory unavailState "" = .ok [] :=
  ⟨rfl, C2_unavailable_returns_empty unavailState "" (Or.inl rfl)⟩

/-- C3: `recall_full_memory` returns the `Memory_Description` of the first
row whose `Timestamp` equals the key, and `none` when no row matches or the
original table is unavailable; the embedding is a total function, so no
exception is possible on any of these paths. -/
theorem C3_recall_full_first_match (st : SkillState) (k : String) :
    (st.original_data = none → recall_full_memory st k = none) ∧
    (∀ tbl, st.original_data = some tbl →
      ((∀ r ∈ tbl, r.timestamp ≠ k) → recall_full_memory st k = none) ∧
      (∀ pre row suf, tbl = pre ++ row :: suf → row.timestamp = k →
        (∀ r ∈ pre, r.timestamp ≠ k) →
        recall_full_memory st k = some row.description)) := by
  refine ⟨fun h => recall_none_of_unavailable st k h, fun tbl htbl => ⟨?_, ?_⟩⟩
  · intro hno
    have hfind : tbl.find? (fun r => r.timestamp == k) = none :=
      List.find?_eq_none.2 (fun r hr => by simpa using hno r hr)
    simp [recall_full_memory, htbl, hfind]
  · intro pre row suf heq hrow hpre
    have hfind : List.find? (fun r => r.timestamp == k) (pre ++ row :: suf) =
        some row :=
      find?_first_match _ pre row suf (by simpa using hrow)
        (fun r hr => by simpa using hpre r hr)
    simp [recall_full_memory, htbl, heq, hfind]

/-- Witness for C3: Scenario 3 (`resolveFull "T1"` is the stored
description, `resolveFull "T2"` is absent). -/
theorem C3_witness :
    recall_full_memory origState "T1" = some "birthday party" ∧
    recall_full_memory origState "T2" = none := by
  constructor
  · exact ((C3_recall_full_first_match origState "T1").2 _ rfl).2
      [] ⟨"T1", "birthday party"⟩ [] rfl rfl (by simp)
  · refine ((C3_recall_full_first_match origState "T2").2 _ rfl).1 ?_
    intro r hr
    rw [List.mem_singleton] at hr
    subst hr
    decide

/-- C4 counterexample: with a match found but `original_data` unavailable,
the handler does NOT speak a not-found utterance; it speaks `recite_memory`
with an absent memory value (`speak_dialog("recite_memory", {"memory": None})`),
refuting "speaks a not-found utterance if resolution yields absent". -/
theorem C4_counterexample :
    handle_do_you_recall_intent absentResolveState ⟨[("query", "hi")]⟩ =
      .ok (.reciteMemory none) ∧
    Dialog.reciteMemory none ≠ Dialog.noMemoryFound := by
  constructor
  · norm_num [handle_do_you_recall_intent, find_closest_memory,
      recall_full_memory, similarityScores, dot, argsort, simLe, pySliceTo,
      absentResolveState, List.range_succ, List.mapM.loop,
      Except.instMonad, Except.bind, Except.pure, List.lookup]
  · decide

/-- C4 (amended): on a recall intent, when `find_closest_memory` returns a
non-empty sequence the handler resolves the first element's join key and
speaks `recite_memory` with whatever `recall_full_memory` returned — the
resolved text or the absent value alike; when it returns the empty
sequence the handler speaks `no_memory_found` (and hence never
`recite_memory`). -/
theorem C4_handler_dispatch (st : SkillState) (msg : Message) :
    (find_closest_memory st ((msg.data.lookup "query").getD "") = .ok [] →
      handle_do_you_recall_intent st msg = .ok .noMemoryFound) ∧
    (∀ r rest,
      find_closest_memory st ((msg.data.lookup "query").getD "") =
        .ok (r :: rest) →
      handle_do_you_recall_intent st msg =
        .ok (.reciteMemory (recall_full_memory st r.2.2))) := by
  constructor
  · intro h
    simp [handle_do_you_recall_intent, h]
  · intro r rest h
    simp [handle_do_you_recall_intent, h]

/-- Witness for C4 (amended): Scenario 4 — empty retrieval speaks
`no_memory_found`. -/
theorem C4_witness :
    handle_do_you_recall_intent unavailState ⟨[("query", "")]⟩ =
      .ok .noMemoryFound :=
  (C4_handler_dispatch unavailState ⟨[("query", "")]⟩).1 rfl

/-- C5 counterexample: with both tables loaded but the model unavailable,
`find_closest_memory` raises (`AttributeError` from `None.encode`), so the
unavailable-`EmbeddingModel` case is NOT detected and does not yield an
empty sequence. -/
theorem C5_counterexample :
    find_closest_memory noModelState "hello" = .error .attributeError ∧
    (Except.error .attributeError :
        Except PyError (List (ℚ × CleanedRow × String))) ≠ .ok [] := by
  constructor
  · exact fc_error_of_no_model noModelState "hello" _ _ rfl rfl rfl
  · exact fun h => Except.noConfusion h

/-- C5 (amended): the unavailable-dependency checks cover exactly the
cleaned table and the embedding matrix in `find_closest_memory` (empty
result) and the original table in `recall_full_memory` (absent result);
an unavailable embedding model with both tables loaded instead raises an
`AttributeError` at query time. -/
theorem C5_soft_fail_coverage (st : SkillState) (q k : String) :
    ((st.cleaned_data = none ∨ st.embeddings = none) →
      find_closest_memory st q = .ok []) ∧
    (st.original_data = none → recall_full_memory st k = none) ∧
    (∀ ct em, st.cleaned_data = some ct → st.embeddings = some em →
      st.model = none → find_closest_memory st q = .error .attributeError) :=
  ⟨fc_empty_of_unavailable st q, recall_none_of_unavailable st k,
   fun ct em hc he hm => fc_error_of_no_model st q ct em hc he hm⟩

/-- Witness for C5 (amended) at `noModelState`. -/
theorem C5_witness :
    recall_full_memory noModelState "T1" = none ∧
    find_closest_memory noModelState "hi" = .error .attributeError :=
  ⟨(C5_soft_fail_coverage noModelState "hi" "T1").2.1 rfl,
   (C5_soft_fail_coverage noModelState "hi" "T1").2.2 _ _ rfl rfl rfl⟩

/-- C6 counterexample: in `tieState` rows 0 and 1 both score 1, yet the
returned sequence lists row 1 (the larger original index) first — the
ascending argsort is stable but the subsequent `[::-1]` reversal flips the
order of equal-score rows, refuting "smaller original index appears
earlier". -/
theorem C6_counterexample :
    find_closest_memory tieState "x" =
      .ok [(1, ⟨"t1", []⟩, "t1"), (1, ⟨"t0", []⟩, "t0")] ∧
    (⟨"t1", []⟩ : CleanedRow) ≠ ⟨"t0", []⟩ := by
  constructor
  · norm_num [find_closest_memory, similarityScores, dot, argsort, simLe,
      pySliceTo, tieState, List.range_succ, List.mapM.loop,
      Except.instMonad, Except.bind, Except.pure]
  · decide

/-- C6 (amended): equal-score rows are NOT ordered stably by original row
order.  In the regime where numpy's default argsort is its stable
insertion sort — tables of at most 16 rows, which covers the refuting
two-row input — the ties come out by DESCENDING original index: ascending
stable order flipped by the `[::-1]` reversal.  Beyond that size numpy's
introsort gives no tie-order guarantee at all (and in particular still
none matching the original claim), which is why this theorem carries the
explicit 16-row bound. -/
theorem C6_tie_order_desc_index (st : SkillState) (ct : List CleanedRow)
    (em : List (List ℚ)) (f : String → List ℚ) (query : String)
    (hc : st.cleaned_data = some ct) (he : st.embeddings = some em)
    (hm : st.model = some f) (hlen : em.length = ct.length)
    (_hsmall : em.length ≤ 16) :
    ∃ idxs : List ℕ,
      find_closest_memory st query = .ok (idxs.map (fun i =>
        ((similarityScores em (f query)).getD i 0, ct.getD i default,
         (ct.getD i default).timestamp))) ∧
      (∀ i ∈ idxs, i < em.length) ∧
      List.Pairwise (fun i j =>
        (similarityScores em (f query)).getD i 0 =
          (similarityScores em (f query)).getD j 0 → j ≤ i) idxs := by
  refine ⟨_, find_closest_eq_ok st ct em f query hc he hm hlen, ?_, ?_⟩
  · intro i hi
    have h2 : i ∈ argsort (similarityScores em (f query)) :=
      List.mem_reverse.1 (pySliceTo_subset _ _ hi)
    rw [← similarityScores_length em (f query)]
    exact mem_argsort.1 h2
  · refine List.Pairwise.imp ?_
      (List.Pairwise.sublist (pySliceTo_sublist _ _)
        (pairwise_reverse_argsort _))
    intro a b h heq
    exact simLe_tie h heq.symm

/-- Witness for C6 (amended) at `tieState` (two rows, within the 16-row
bound). -/
theorem C6_witness :
    ∃ idxs : List ℕ,
      find_closest_memory tieState "x" = .ok (idxs.map (fun i =>
        ((similarityScores [[1], [1]] ((fun _ => ([1] : List ℚ)) "x")).getD i 0,
         ([⟨"t0", []⟩, ⟨"t1", []⟩] : List CleanedRow).getD i default,
         (([⟨"t0", []⟩, ⟨"t1", []⟩] : List CleanedRow).getD i
             default).timestamp))) ∧
      (∀ i ∈ idxs, i < ([[1], [1]] : List (List ℚ)).length) ∧
      List.Pairwise (fun i j =>
        (similarityScores [[1], [1]] ((fun _ => ([1] : List ℚ)) "x")).getD i 0 =
          (similarityScores [[1], [1]] ((fun _ => ([1] : List ℚ)) "x")).getD j 0 →
        j ≤ i) idxs :=
  C6_tie_order_desc_index tieState _ _ _ "x" rfl rfl rfl rfl (by decide)

/-- C7: `find_closest_memory` never reads `similarity_threshold`: altering
only that attribute leaves the returned ranked sequence identical for
every query (no threshold filtering; only the `top_n` slice). -/
theorem C7_threshold_not_used (st : SkillState) (x : Option ℚ) (q : String) :
    find_closest_memory { st with similarity_threshold := x } q =
      find_closest_memory st q := by
  cases st
  rfl

/-- C8 is violated by the code: `initialize` does merge `top_n = 5` into
the settings, but `__init__` captured `self.top_n = settings.get("top_n")`
(= `None`) before that merge, and `[:None]` slices nothing off, so with
`top_n` absent and six memory rows `find_closest_memory` returns all six
results rather than the default five. -/
theorem C8_top_n_default_not_applied :
    (initializeSettings hostSettingsNoTopN).top_n = some 5 ∧
    initTopN hostSettingsNoTopN = none ∧
    (find_closest_memory sixRowState "x").toOption.map List.length = some 6 := by
  refine ⟨rfl, rfl, ?_⟩
  norm_num [find_closest_memory, similarityScores, dot, argsort, simLe,
    pySliceTo, sixRowState, hostSettingsNoTopN, initTopN, List.range_succ,
    List.mapM.loop, Except.instMonad, Except.bind, Except.pure,
    Except.toOption]

/-- C9: the result of `find_closest_memory` depends only on the cleaned
table, the embedding matrix, the (deterministic, function-valued) model
and `top_n`: two states agreeing on those four fields give identical
ordered results for the same query — in particular two calls on one
unchanged state do. -/
theorem C9_deterministic_on_loaded_state (st₁ st₂ : SkillState) (q : String)
    (h1 : st₁.cleaned_data = st₂.cleaned_data)
    (h2 : st₁.embeddings = st₂.embeddings)
    (h3 : st₁.model = st₂.model)
    (h4 : st₁.top_n = st₂.top_n) :
    find_closest_memory st₁ q = find_closest_memory st₂ q := by
  cases st₁
  cases st₂
  simp only at h1 h2 h3 h4
  subst h1 h2 h3 h4
  rfl

/-- Witness for C9: `scnState` against the same loaded data with a
different original table and model name. -/
theorem C9_witness :
    find_closest_memory scnState "what happened" =
      find_closest_memory scnStateAltOrig "what happened" :=
  C9_deterministic_on_loaded_state scnState scnStateAltOrig "what happened"
    rfl rfl rfl rfl

/-- C10: a recall message whose data payload has no `"query"` entry is
handled exactly like one carrying the empty-string query. -/
theorem C10_missing_query_defaults_empty (st : SkillState) (msg : Message)
    (h : msg.data.lookup "query" = none) :
    handle_do_you_recall_intent st msg =
      handle_do_you_recall_intent st ⟨[("query", "")]⟩ := by
  unfold handle_do_you_recall_intent
  rw [h]
  rfl

/-- Witness for C10: the empty payload. -/
theorem C10_witness :
    handle_do_you_recall_intent unavailState ⟨[]⟩ =
      handle_do_you_recall_intent unavailState ⟨[("query", "")]⟩ :=
  C10_missing_query_defaults_empty unavailState ⟨[]⟩ rfl

end NTR
